import Mathlib

/-!
Shallow embedding of `src/www/browser/MediaRec.js`.

The source file holds two variants of the `MediaRec` proxy class:
- a standalone browser variant (first part of the file) in which a handle owns
  an `Audio` node and drives it directly, and
- an executor-backed variant (second part of the file) in which every operation
  is forwarded to an external executor via `exec` and results come back through
  callbacks or the inbound message channel.

Both variants keep a process-wide registry `mediaObjects` mapping identifier
strings to handle objects, and both share the status-dispatch entry point
`MediaRec.onStatus`.

Modelling conventions:
- JavaScript numbers are modelled as `Rat` (no float rounding is exercised by
  the modelled code paths).
- The optional callbacks of a handle are modelled by presence flags; an
  invocation of a callback is recorded as an `Event` in an observation trace
  rather than run, so callbacks are modelled as non-throwing.
- Each invocation of `MediaRec.onStatus` is recorded as a `statusDispatch`
  event at the head of its trace: this is the observable fact that a status
  event was emitted for a given identifier, message type and value.
- A JavaScript property access on `undefined` (the node after `release`)
  raises a `TypeError`; fallible node accesses are modelled on `Option Node`.
-/

set_option autoImplicit false

namespace MediaRecSpec

/-- JavaScript exception values arising in the embedded code paths: a
`TypeError` raised by a property access on `undefined`, tagged with the
failing access. -/
inductive JSErr where
  | typeError (access : String)
  deriving DecidableEq, Repr

/-- JavaScript values flowing through `MediaRec.onStatus` as the `value`
payload: numbers, strings (the literal used by the unsupported recording
operations), `MediaError`-like objects carrying a numeric `code`, caught
exception values and `NaN`. -/
inductive MValue where
  | num (n : Rat)
  | str (s : String)
  | errObj (code : Rat)
  | exn (e : JSErr)
  | nan
  deriving DecidableEq, Repr

/-- Models the JavaScript `Number(value)` coercion applied by the
`MEDIA_POSITION` branch of `onStatus`, for the payload shapes occurring in
this code: numbers pass through, nonnegative-integer strings parse, every
other shape coerces to `NaN`. -/
def jsToNumber : MValue → MValue
  | .num n => .num n
  | .str s =>
      match s.toNat? with
      | some m => .num (m : Rat)
      | none => .nan
  | _ => .nan

/-- Models the JavaScript loose equality `value == k` between a payload and a
number, as used by the executor-backed `onStatus` for the Stopped test:
numbers compare numerically, nonnegative-integer strings coerce and compare,
objects and `NaN` never compare equal. -/
def jsLooseEqNum (v : MValue) (k : Rat) : Bool :=
  match v with
  | .num n => decide (n = k)
  | .str s =>
      match s.toNat? with
      | some m => decide ((m : Rat) = k)
      | none => false
  | _ => false

-- MediaRec messages (identical in both variants of the source).
def MEDIA_STATE : Rat := 1
def MEDIA_DURATION : Rat := 2
def MEDIA_POSITION : Rat := 3
def MEDIA_ERROR : Rat := 9

-- MediaRec states (identical in both variants of the source).
def MEDIA_NONE : Rat := 0
def MEDIA_STARTING : Rat := 1
def MEDIA_RUNNING : Rat := 2
def MEDIA_PAUSED : Rat := 3
def MEDIA_STOPPED : Rat := 4

-- Standard `MediaError` codes referenced by the standalone variant.
def MEDIA_ERR_ABORTED : Rat := 1
def MEDIA_ERR_SRC_NOT_SUPPORTED : Rat := 4

/-- The underlying `Audio` element of the standalone variant: the fields the
embedded code paths read or write. -/
structure Node where
  src : String
  currentTime : Rat
  paused : Bool
  deriving DecidableEq, Repr

/-- A `MediaRec` handle object. Callback fields hold presence flags (the
callbacks are optional); `duration` and `position` are the cached values
`_duration` and `_position`, both initialised to `-1`; `node` is the
standalone variant's underlying player resource (`none` models the field
being `undefined`, as after `release`). The executor-backed variant never
touches `node`. -/
structure Handle where
  id : String
  src : String
  hasSuccess : Bool
  hasError : Bool
  hasStatus : Bool
  duration : MValue
  position : MValue
  node : Option Node
  deriving DecidableEq, Repr

/-- The process-wide `mediaObjects` registry, as an association list from
identifier strings to handles. -/
abbrev Registry := List (String × Handle)

/-- Registry lookup, `mediaObjects[id]`. -/
def regGet (r : Registry) (id : String) : Option Handle :=
  match r with
  | [] => none
  | (k, v) :: t => if k = id then some v else regGet t id

/-- Registry write, `mediaObjects[id] = h` (insert or overwrite). The methods
of a handle mutate the handle object in place; since the registry aliases the
same object, the mutation is modelled as overwriting the registry entry. -/
def regSet (r : Registry) (id : String) (h : Handle) : Registry :=
  match r with
  | [] => [(id, h)]
  | (k, v) :: t => if k = id then (k, h) :: t else (k, v) :: regSet t id h

/-- Observable events of a run: callback invocations, console diagnostics,
status-dispatch markers and outbound executor requests. -/
inductive Event where
  | statusDispatch (id : String) (msgType : Rat) (value : MValue)
  | statusCb (id : String) (value : MValue)
  | successCb (id : String)
  | errorCb (id : String) (value : MValue)
  | posSuccess (id : String) (value : MValue)
  | posFail (id : String) (value : MValue)
  | consoleUnhandled (msgType : Rat)
  | consoleUnknownMedia (id : String)
  | execReq (action : String) (id : String)
  deriving DecidableEq, Repr

def strNotSupported : String := "Not supported"
def actionStatus : String := "status"
def actionCreate : String := "create"
def actionRelease : String := "release"
def strUnknownAction : String := "Unknown media action"

/-- The handle object as first registered by either constructor: fields from
the constructor arguments, both caches at the `-1` sentinel, no node yet. -/
def freshHandle (newId src : String) (hasS hasE hasSt : Bool) : Handle :=
  { id := newId, src := src, hasSuccess := hasS, hasError := hasE,
    hasStatus := hasSt, duration := .num (-1), position := .num (-1),
    node := none }

def pauseOnUndefined : JSErr := .typeError ("node.pause")
def seekOnUndefined : JSErr := .typeError ("node.currentTime set")
def readTimeOnUndefined : JSErr := .typeError ("node.currentTime read")

namespace Standalone

/-- Status dispatch of the standalone variant (`MediaRec.onStatus`, source
lines 229-257). Looks the identifier up in the registry; if found, switches
on the message type: state changes invoke the status callback and, when the
value is strictly equal (`===`) to `MEDIA_STOPPED`, additionally the success
callback; duration updates overwrite the cached duration; errors invoke the
error callback; position updates overwrite the cached position after a
`Number` coercion; an unrecognised type logs a diagnostic. If the identifier
is unknown, a diagnostic is logged and nothing else happens. -/
def onStatus (r : Registry) (id : String) (msgType : Rat) (value : MValue) :
    Registry × List Event :=
  match regGet r id with
  | some media =>
      if msgType = MEDIA_STATE then
        (r, Event.statusDispatch id msgType value ::
          ((if media.hasStatus then [Event.statusCb id value] else []) ++
           (if value = MValue.num MEDIA_STOPPED then
              (if media.hasSuccess then [Event.successCb id] else [])
            else [])))
      else if msgType = MEDIA_DURATION then
        (regSet r id { media with duration := value },
         [Event.statusDispatch id msgType value])
      else if msgType = MEDIA_ERROR then
        (r, Event.statusDispatch id msgType value ::
          (if media.hasError then [Event.errorCb id value] else []))
      else if msgType = MEDIA_POSITION then
        (regSet r id { media with position := jsToNumber value },
         [Event.statusDispatch id msgType value])
      else
        (r, [Event.statusDispatch id msgType value, Event.consoleUnhandled msgType])
  | none =>
      (r, [Event.statusDispatch id msgType value, Event.consoleUnknownMedia id])

/-- Creation of the underlying `Audio` node (`createNode`, source lines
34-67). The attached event listeners are modelled as the separate entry
points `nodeOnError` (and `onStatus` for the others); they fire
asynchronously, never during creation. The `if (media.src)` truthiness guard
is a no-op in the model because an absent `src` and the empty default agree. -/
def createNode (mediaSrc : String) : Node :=
  { src := mediaSrc, currentTime := 0, paused := false }

/-- The `onerror` listener attached by `createNode` (source lines 49-56):
a `MEDIA_ERR_SRC_NOT_SUPPORTED` code is replaced by an error object with code
`MEDIA_ERR_ABORTED`; every other error object is passed through unchanged. -/
def nodeOnError (r : Registry) (id : String) (code : Rat) :
    Registry × List Event :=
  onStatus r id MEDIA_ERROR
    (if code = MEDIA_ERR_SRC_NOT_SUPPORTED then MValue.errObj MEDIA_ERR_ABORTED
     else MValue.errObj code)

/-- The standalone constructor (source lines 81-99): after the argument-shape
check, generate a fresh identifier (here a parameter `newId`), register the
handle, set its fields with both caches at `-1`, synchronously dispatch a
`MEDIA_STARTING` state event, then try to build the `Audio` node, reporting a
construction failure (`audioCtorFails`) as a `MEDIA_ERR_ABORTED` error event
instead of raising. -/
def construct (r : Registry) (newId src : String)
    (hasS hasE hasSt : Bool) (audioCtorFails : Bool) :
    Registry × List Event :=
  let r1 := regSet r newId (freshHandle newId src hasS hasE hasSt)
  let o1 := onStatus r1 newId MEDIA_STATE (.num MEDIA_STARTING)
  if audioCtorFails then
    let o2 := onStatus o1.1 newId MEDIA_ERROR (.errObj MEDIA_ERR_ABORTED)
    (o2.1, o1.2 ++ o2.2)
  else
    match regGet o1.1 newId with
    | some h1 => (regSet o1.1 newId { h1 with node := some (createNode src) }, o1.2)
    | none => (o1.1, o1.2)

/-- `MediaRec.prototype.pause` of the standalone variant (source lines
159-165): `this.node.pause()` then a `MEDIA_PAUSED` state event, with any
failure caught and reported as an error event. The only failure the model
exhibits is the `TypeError` from `this.node` being `undefined`. A method call
needs a receiver, and every constructed handle is registered, so the
unregistered branch is unreachable. -/
def pause (r : Registry) (id : String) : Registry × List Event :=
  match regGet r id with
  | none => (r, [])
  | some h =>
      match h.node with
      | none => onStatus r id MEDIA_ERROR (.exn pauseOnUndefined)
      | some n =>
          onStatus (regSet r id { h with node := some { n with paused := true } })
            id MEDIA_STATE (.num MEDIA_PAUSED)

/-- `MediaRec.prototype.seekTo` of the standalone variant (source lines
148-154): set `this.node.currentTime = milliseconds / 1000`, with any failure
caught and reported as an error event. -/
def seekTo (r : Registry) (id : String) (milliseconds : Rat) :
    Registry × List Event :=
  match regGet r id with
  | none => (r, [])
  | some h =>
      match h.node with
      | none => onStatus r id MEDIA_ERROR (.exn seekOnUndefined)
      | some n =>
          (regSet r id { h with node := some { n with currentTime := milliseconds / 1000 } },
           [])

/-- `MediaRec.prototype.stop` of the standalone variant (source lines
135-143): `this.pause()`, then `this.seekTo(0)`, then a synthesized
`MEDIA_STOPPED` state event. The surrounding try/catch of the source is
unreachable in the model: `pause` and `seekTo` catch internally and callbacks
are modelled as non-throwing, so no step of the body raises. -/
def stop (r : Registry) (id : String) : Registry × List Event :=
  let p := pause r id
  let s := seekTo p.1 id 0
  let f := onStatus s.1 id MEDIA_STATE (.num MEDIA_STOPPED)
  (f.1, p.2 ++ s.2 ++ f.2)

/-- `MediaRec.prototype.getCurrentPosition` of the standalone variant (source
lines 180-188): read `this.node.currentTime`, dispatch it as a
`MEDIA_POSITION` status event, then invoke the caller-supplied success
callback with it; on a raised failure invoke the caller-supplied failure
callback instead. -/
def getCurrentPosition (r : Registry) (id : String) : Registry × List Event :=
  match regGet r id with
  | none => (r, [])
  | some h =>
      match h.node with
      | none => (r, [Event.posFail id (.exn readTimeOnUndefined)])
      | some n =>
          let o := onStatus r id MEDIA_POSITION (.num n.currentTime)
          (o.1, o.2 ++ [Event.posSuccess id (.num n.currentTime)])

/-- `MediaRec.prototype.startRecord` of the standalone variant (source lines
193-195): unconditionally dispatch a "Not supported" error event. -/
def startRecord (r : Registry) (id : String) : Registry × List Event :=
  onStatus r id MEDIA_ERROR (.str strNotSupported)

/-- `MediaRec.prototype.stopRecord` of the standalone variant (source lines
200-202): unconditionally dispatch a "Not supported" error event. -/
def stopRecord (r : Registry) (id : String) : Registry × List Event :=
  onStatus r id MEDIA_ERROR (.str strNotSupported)

/-- `MediaRec.prototype.release` of the standalone variant (source lines
207-212): `delete this.node`, dropping the local player-resource reference;
the registry entry is not removed. The `delete` never raises, so the catch
branch is unreachable. -/
def release (r : Registry) (id : String) : Registry × List Event :=
  match regGet r id with
  | none => (r, [])
  | some h => (regSet r id { h with node := none }, [])

/-- The method names assigned on `MediaRec.prototype` in the standalone
variant (source lines 118-219), in source order. -/
def prototypeMethods : List String :=
  ["play", "stop", "seekTo", "pause", "getDuration", "getCurrentPosition",
   "startRecord", "stopRecord", "release", "setVolume"]

end Standalone

namespace ExecBacked

/-- Status dispatch of the executor-backed variant (`MediaRec.onStatus`,
source lines 466-496). Identical to the standalone dispatch except that the
Stopped test uses loose equality (`==`) instead of strict equality. -/
def onStatus (r : Registry) (id : String) (msgType : Rat) (value : MValue) :
    Registry × List Event :=
  match regGet r id with
  | some media =>
      if msgType = MEDIA_STATE then
        (r, Event.statusDispatch id msgType value ::
          ((if media.hasStatus then [Event.statusCb id value] else []) ++
           (if jsLooseEqNum value MEDIA_STOPPED then
              (if media.hasSuccess then [Event.successCb id] else [])
            else [])))
      else if msgType = MEDIA_DURATION then
        (regSet r id { media with duration := value },
         [Event.statusDispatch id msgType value])
      else if msgType = MEDIA_ERROR then
        (r, Event.statusDispatch id msgType value ::
          (if media.hasError then [Event.errorCb id value] else []))
      else if msgType = MEDIA_POSITION then
        (regSet r id { media with position := jsToNumber value },
         [Event.statusDispatch id msgType value])
      else
        (r, [Event.statusDispatch id msgType value, Event.consoleUnhandled msgType])
  | none =>
      (r, [Event.statusDispatch id msgType value, Event.consoleUnknownMedia id])

/-- The executor-backed constructor (source lines 299-310): after the
argument-shape check, generate a fresh identifier (here a parameter `newId`),
register the handle, set its fields with both caches at `-1`, and issue a
fire-and-forget `create` request to the executor. -/
def construct (r : Registry) (newId src : String) (hasS hasE hasSt : Bool) :
    Registry × List Event :=
  (regSet r newId (freshHandle newId src hasS hasE hasSt),
   [Event.execReq actionCreate newId])

/-- `MediaRec.get` (source lines 327-329): return the registered handle for
an identifier. -/
def get (r : Registry) (id : String) : Option Handle :=
  regGet r id

/-- `MediaRec.prototype.getCurrentPosition` of the executor-backed variant
(source lines 378-384): forward to the executor; the executor's resolution is
the parameter `result`. On success the internal handler stores the value into
the cached position and then invokes the caller-supplied success callback
with it; on failure the caller-supplied failure callback is invoked. No
status event is dispatched on this path. -/
def getCurrentPosition (r : Registry) (id : String) (result : Except MValue Rat) :
    Registry × List Event :=
  match result with
  | .ok p =>
      match regGet r id with
      | some me => (regSet r id { me with position := .num p },
                    [Event.posSuccess id (.num p)])
      | none => (r, [Event.posSuccess id (.num p)])
  | .error e => (r, [Event.posFail id e])

/-- `MediaRec.prototype.release` of the executor-backed variant (source lines
447-449): a fire-and-forget `release` request to the executor; no local state
changes and the registry entry is not removed. -/
def release (r : Registry) (id : String) : Registry × List Event :=
  (r, [Event.execReq actionRelease id])

/-- The method names assigned on `MediaRec.prototype` in the executor-backed
variant (source lines 334-456), in source order; `getRecordLevels` is
assigned under a platform conditional. -/
def prototypeMethods : List String :=
  ["play", "stop", "seekTo", "pause", "getDuration", "getCurrentPosition",
   "startRecord", "startRecordWithCompression", "stopRecord", "pauseRecord",
   "resumeRecord", "getRecordLevels", "release", "setVolume"]

end ExecBacked

/-- An inbound channel message from the native side, shape
`{ action, status: { id, msgType, value } }` (source line 67 of the spec,
code lines 500-506). -/
structure NativeMsg where
  action : String
  statusId : String
  statusMsgType : Rat
  statusValue : MValue
  deriving DecidableEq, Repr

/-- `onMessageFromNative` (source lines 500-506): a message whose action is
`"status"` is dispatched through the executor-backed `onStatus`; any other
action raises an error, modelled as an `Except.error` result, with the
registry returned unchanged. -/
def onMessageFromNative (r : Registry) (msg : NativeMsg) :
    Registry × Except String (List Event) :=
  if msg.action = actionStatus then
    let o := ExecBacked.onStatus r msg.statusId msg.statusMsgType msg.statusValue
    (o.1, .ok o.2)
  else
    (r, .error (strUnknownAction ++ msg.action))

/-! Concrete fixtures used by witnesses and counterexamples. -/

def mId : String := "m1"
def mSrc : String := "a.mp3"
def unknownId : String := "nobody"

def sampleNode : Node := { src := mSrc, currentTime := 4, paused := false }

/-- A registered handle with all three callbacks present and a live node. -/
def sampleHandle : Handle :=
  { id := mId, src := mSrc, hasSuccess := true, hasError := true,
    hasStatus := true, duration := .num (-1), position := .num (-1),
    node := some sampleNode }

/-- The same handle after its node reference was dropped (as after
`release`), so node accesses raise. -/
def releasedHandle : Handle := { sampleHandle with node := none }

def sampleReg : Registry := [(mId, sampleHandle)]
def releasedReg : Registry := [(mId, releasedHandle)]

/-! Registry lemmas. -/

theorem regGet_regSet_self (r : Registry) (id : String) (h : Handle) :
    regGet (regSet r id h) id = some h := by
  induction r with
  | nil => simp [regGet, regSet]
  | cons kv t ih =>
      obtain ⟨k, v⟩ := kv
      by_cases hk : k = id
      · simp [regGet, regSet, hk]
      · simp [regGet, regSet, hk, ih]

theorem regGet_regSet_ne (r : Registry) (id id2 : String) (h : Handle)
    (hne : id ≠ id2) : regGet (regSet r id h) id2 = regGet r id2 := by
  induction r with
  | nil => simp [regGet, regSet, hne]
  | cons kv t ih =>
      obtain ⟨k, v⟩ := kv
      by_cases hk : k = id
      · subst hk
        simp [regGet, regSet, hne]
      · simp only [regSet, if_neg hk, regGet]
        by_cases hk2 : k = id2 <;> simp [hk2, ih]

/-! Case lemmas for the two status dispatchers. -/

theorem standalone_onStatus_state (r : Registry) (id : String) (media : Handle)
    (v : MValue) (hr : regGet r id = some media) :
    Standalone.onStatus r id MEDIA_STATE v =
      (r, Event.statusDispatch id MEDIA_STATE v ::
        ((if media.hasStatus then [Event.statusCb id v] else []) ++
         (if v = MValue.num MEDIA_STOPPED then
            (if media.hasSuccess then [Event.successCb id] else [])
          else []))) := by
  unfold Standalone.onStatus
  rw [hr]
  simp

theorem standalone_onStatus_error (r : Registry) (id : String) (media : Handle)
    (v : MValue) (hr : regGet r id = some media) :
    Standalone.onStatus r id MEDIA_ERROR v =
      (r, Event.statusDispatch id MEDIA_ERROR v ::
        (if media.hasError then [Event.errorCb id v] else [])) := by
  unfold Standalone.onStatus
  rw [hr]
  norm_num [MEDIA_ERROR, MEDIA_STATE, MEDIA_DURATION]

theorem standalone_onStatus_position (r : Registry) (id : String) (media : Handle)
    (v : MValue) (hr : regGet r id = some media) :
    Standalone.onStatus r id MEDIA_POSITION v =
      (regSet r id { media with position := jsToNumber v },
       [Event.statusDispatch id MEDIA_POSITION v]) := by
  unfold Standalone.onStatus
  rw [hr]
  norm_num [MEDIA_ERROR, MEDIA_STATE, MEDIA_DURATION, MEDIA_POSITION]

theorem standalone_onStatus_duration (r : Registry) (id : String) (media : Handle)
    (v : MValue) (hr : regGet r id = some media) :
    Standalone.onStatus r id MEDIA_DURATION v =
      (regSet r id { media with duration := v },
       [Event.statusDispatch id MEDIA_DURATION v]) := by
  unfold Standalone.onStatus
  rw [hr]
  norm_num [MEDIA_STATE, MEDIA_DURATION]

theorem standalone_onStatus_unknown (r : Registry) (id : String)
    (msgType : Rat) (v : MValue) (hr : regGet r id = none) :
    Standalone.onStatus r id msgType v =
      (r, [Event.statusDispatch id msgType v, Event.consoleUnknownMedia id]) := by
  unfold Standalone.onStatus
  rw [hr]

theorem execbacked_onStatus_state (r : Registry) (id : String) (media : Handle)
    (v : MValue) (hr : regGet r id = some media) :
    ExecBacked.onStatus r id MEDIA_STATE v =
      (r, Event.statusDispatch id MEDIA_STATE v ::
        ((if media.hasStatus then [Event.statusCb id v] else []) ++
         (if jsLooseEqNum v MEDIA_STOPPED then
            (if media.hasSuccess then [Event.successCb id] else [])
          else []))) := by
  unfold ExecBacked.onStatus
  rw [hr]
  simp

theorem execbacked_onStatus_unknown (r : Registry) (id : String)
    (msgType : Rat) (v : MValue) (hr : regGet r id = none) :
    ExecBacked.onStatus r id msgType v =
      (r, [Event.statusDispatch id msgType v, Event.consoleUnknownMedia id]) := by
  unfold ExecBacked.onStatus
  rw [hr]

/-! Case lemmas for the standalone operations. -/

theorem regSet_regSet_self (r : Registry) (id : String) (h1 h2 : Handle) :
    regSet (regSet r id h1) id h2 = regSet r id h2 := by
  induction r with
  | nil => simp [regSet]
  | cons kv t ih =>
      obtain ⟨k, v⟩ := kv
      by_cases hk : k = id
      · simp [regSet, hk]
      · simp [regSet, hk, ih]

theorem standalone_pause_no_node (r : Registry) (id : String) (h : Handle)
    (hr : regGet r id = some h) (hn : h.node = none) :
    Standalone.pause r id =
      (r, Event.statusDispatch id MEDIA_ERROR (.exn pauseOnUndefined) ::
        (if h.hasError then [Event.errorCb id (.exn pauseOnUndefined)] else [])) := by
  obtain ⟨i, s, a, b, c, d, p, nd⟩ := h
  dsimp only at hn
  subst hn
  unfold Standalone.pause
  rw [hr]
  exact standalone_onStatus_error r id _ _ hr

theorem standalone_seekTo_no_node (r : Registry) (id : String) (h : Handle)
    (ms : Rat) (hr : regGet r id = some h) (hn : h.node = none) :
    Standalone.seekTo r id ms =
      (r, Event.statusDispatch id MEDIA_ERROR (.exn seekOnUndefined) ::
        (if h.hasError then [Event.errorCb id (.exn seekOnUndefined)] else [])) := by
  obtain ⟨i, s, a, b, c, d, p, nd⟩ := h
  dsimp only at hn
  subst hn
  unfold Standalone.seekTo
  rw [hr]
  exact standalone_onStatus_error r id _ _ hr

theorem standalone_construct_fst (r : Registry) (newId src : String)
    (hS hE hSt : Bool) (af : Bool) :
    (Standalone.construct r newId src hS hE hSt af).1 =
      regSet r newId
        { freshHandle newId src hS hE hSt with
          node := if af then none else some (Standalone.createNode src) } := by
  unfold Standalone.construct
  have hreg := regGet_regSet_self r newId (freshHandle newId src hS hE hSt)
  dsimp only
  rw [standalone_onStatus_state _ _ _ _ hreg]
  dsimp only
  rw [standalone_onStatus_error _ _ _ _ hreg, hreg]
  cases af with
  | true => simp [freshHandle]
  | false => simp [freshHandle, regSet_regSet_self]

/-- C6 (confirmed): immediately after either constructor returns, the freshly
constructed handle is retrievable from the process-wide registry by its newly
generated identifier (via `MediaRec.get`, which is the registry lookup); its
fields are those just assigned, with the standalone variant additionally
holding its new node unless node creation failed. -/
theorem construct_registers_handle (r : Registry) (newId src : String)
    (hS hE hSt : Bool) (audioCtorFails : Bool) :
    ExecBacked.get (ExecBacked.construct r newId src hS hE hSt).1 newId =
      some (freshHandle newId src hS hE hSt)
  ∧ regGet (Standalone.construct r newId src hS hE hSt audioCtorFails).1 newId =
      some { freshHandle newId src hS hE hSt with
             node := if audioCtorFails then none
                     else some (Standalone.createNode src) } := by
  constructor
  · unfold ExecBacked.get ExecBacked.construct
    exact regGet_regSet_self r newId _
  · rw [standalone_construct_fst]
    exact regGet_regSet_self r newId _

/-- C3 (confirmed): dispatching a status event for an identifier that is not
in the registry logs exactly the unknown-media diagnostic, invokes no
callback, leaves the registry — and hence the state of every registered
handle — unchanged, and (by totality of the model) never raises; this holds
for both variants of `onStatus`. -/
theorem onStatus_unknown_id_logs_and_preserves (r : Registry) (id : String)
    (msgType : Rat) (v : MValue) (hr : regGet r id = none) :
    Standalone.onStatus r id msgType v =
      (r, [Event.statusDispatch id msgType v, Event.consoleUnknownMedia id])
  ∧ ExecBacked.onStatus r id msgType v =
      (r, [Event.statusDispatch id msgType v, Event.consoleUnknownMedia id])
  ∧ (∀ k h, regGet r k = some h →
      regGet (Standalone.onStatus r id msgType v).1 k = some h ∧
      regGet (ExecBacked.onStatus r id msgType v).1 k = some h) := by
  refine ⟨standalone_onStatus_unknown r id msgType v hr,
          execbacked_onStatus_unknown r id msgType v hr, ?_⟩
  intro k h hk
  rw [standalone_onStatus_unknown r id msgType v hr,
      execbacked_onStatus_unknown r id msgType v hr]
  exact ⟨hk, hk⟩

/-- Witness for C3: a concrete event for an unknown identifier against a
one-handle registry is dropped with the diagnostic and the registry survives
unchanged. -/
theorem onStatus_unknown_id_logs_and_preserves_witness :
    Standalone.onStatus sampleReg unknownId MEDIA_STATE (.num 4) =
      (sampleReg, [Event.statusDispatch unknownId MEDIA_STATE (.num 4),
                   Event.consoleUnknownMedia unknownId]) :=
  (onStatus_unknown_id_logs_and_preserves sampleReg unknownId MEDIA_STATE
    (.num 4) (by decide)).1

theorem standalone_construct_snd (r : Registry) (newId src : String)
    (hS hE hSt : Bool) (af : Bool) :
    (Standalone.construct r newId src hS hE hSt af).2 =
      (Event.statusDispatch newId MEDIA_STATE (.num MEDIA_STARTING) ::
        (if hSt then [Event.statusCb newId (.num MEDIA_STARTING)] else [])) ++
      (if af then
        Event.statusDispatch newId MEDIA_ERROR (.errObj MEDIA_ERR_ABORTED) ::
          (if hE then [Event.errorCb newId (.errObj MEDIA_ERR_ABORTED)] else [])
       else []) := by
  unfold Standalone.construct
  have hreg := regGet_regSet_self r newId (freshHandle newId src hS hE hSt)
  dsimp only
  rw [standalone_onStatus_state _ _ _ _ hreg]
  dsimp only
  rw [standalone_onStatus_error _ _ _ _ hreg, hreg]
  cases af with
  | true => norm_num [freshHandle, MEDIA_STARTING, MEDIA_STOPPED]
  | false => norm_num [freshHandle, MEDIA_STARTING, MEDIA_STOPPED]

/-- C10 (confirmed): the standalone constructor registers the handle and then
synchronously dispatches a Starting state event for its own identifier: with
a status callback supplied, the construction trace begins with the Starting
dispatch followed immediately by the status callback receiving the Starting
value, before any other event; and the registered handle's cached duration
and position are the `-1` sentinel — at that dispatch and still when the
constructor returns, since construction never writes either cache. -/
theorem standalone_construct_emits_starting (r : Registry) (newId src : String)
    (hS hE : Bool) (af : Bool) :
    ((Standalone.construct r newId src hS hE true af).2.take 2 =
      [Event.statusDispatch newId MEDIA_STATE (.num MEDIA_STARTING),
       Event.statusCb newId (.num MEDIA_STARTING)])
  ∧ (regGet (Standalone.construct r newId src hS hE true af).1 newId).map
      Handle.duration = some (.num (-1))
  ∧ (regGet (Standalone.construct r newId src hS hE true af).1 newId).map
      Handle.position = some (.num (-1)) := by
  refine ⟨?_, ?_, ?_⟩
  · rw [standalone_construct_snd]
    cases af <;> simp
  · rw [standalone_construct_fst, regGet_regSet_self]
    rfl
  · rw [standalone_construct_fst, regGet_regSet_self]
    rfl

/-- C2 (confirmed): a state-change dispatch to a registered handle leaves the
registry unchanged, invokes the status callback with the new state value
exactly when one is present (absence is a no-op), and invokes the success
callback precisely when the value is the Stopped state and a success callback
is present — with both present and the Stopped value, the trace is exactly
the dispatch marker, then the status callback, then the success callback
once. The executor-backed dispatcher satisfies the same success-callback
characterisation on numeric state values. -/
theorem state_event_callback_contract (r : Registry) (id : String)
    (media : Handle) (v : MValue) (hr : regGet r id = some media) :
    (Standalone.onStatus r id MEDIA_STATE v).1 = r
  ∧ (media.hasStatus = true →
      Event.statusCb id v ∈ (Standalone.onStatus r id MEDIA_STATE v).2)
  ∧ (media.hasStatus = false →
      Event.statusCb id v ∉ (Standalone.onStatus r id MEDIA_STATE v).2)
  ∧ (Event.successCb id ∈ (Standalone.onStatus r id MEDIA_STATE v).2 ↔
      (v = MValue.num MEDIA_STOPPED ∧ media.hasSuccess = true))
  ∧ (media.hasStatus = true → media.hasSuccess = true →
      v = MValue.num MEDIA_STOPPED →
      (Standalone.onStatus r id MEDIA_STATE v).2 =
        [Event.statusDispatch id MEDIA_STATE v, Event.statusCb id v,
         Event.successCb id])
  ∧ (∀ n : Rat,
      Event.successCb id ∈ (ExecBacked.onStatus r id MEDIA_STATE (.num n)).2 ↔
        (n = MEDIA_STOPPED ∧ media.hasSuccess = true)) := by
  rw [standalone_onStatus_state r id media v hr]
  refine ⟨rfl, ?_, ?_, ?_, ?_, ?_⟩
  · intro hst
    simp [hst]
  · intro hst
    by_cases hv : v = MValue.num MEDIA_STOPPED <;>
      by_cases hs : media.hasSuccess <;> simp [hst, hv, hs]
  · by_cases hst : media.hasStatus <;> by_cases hv : v = MValue.num MEDIA_STOPPED <;>
      by_cases hs : media.hasSuccess <;> simp [hst, hv, hs]
  · intro hst hs hv
    simp [hst, hs, hv]
  · intro n
    rw [execbacked_onStatus_state r id media _ hr]
    by_cases hst : media.hasStatus <;> by_cases hn : n = MEDIA_STOPPED <;>
      by_cases hs : media.hasSuccess <;>
        simp [jsLooseEqNum, hst, hn, hs]

/-- Witness for C2: at a concrete registered handle with both callbacks set
and the Stopped value, the trace is exactly dispatch, status callback, then
success callback. -/
theorem state_event_callback_contract_witness :
    (Standalone.onStatus sampleReg mId MEDIA_STATE (.num 4)).2 =
      [Event.statusDispatch mId MEDIA_STATE (.num 4),
       Event.statusCb mId (.num 4), Event.successCb mId] :=
  (state_event_callback_contract sampleReg mId sampleHandle (.num 4)
    (by decide)).2.2.2.2.1 (by decide) (by decide) (by decide)

/-- C5 (confirmed): when the standalone node reports an error to its
`onerror` listener, a source-not-supported code is replaced by an error
object carrying the aborted code before it reaches the handle's error
callback, and any other error object is passed through with its code
unchanged. -/
theorem node_error_translation (r : Registry) (id : String) (h : Handle)
    (code : Rat) (hr : regGet r id = some h) (hE : h.hasError = true) :
    (code = MEDIA_ERR_SRC_NOT_SUPPORTED →
      Standalone.nodeOnError r id code =
        (r, [Event.statusDispatch id MEDIA_ERROR (.errObj MEDIA_ERR_ABORTED),
             Event.errorCb id (.errObj MEDIA_ERR_ABORTED)]))
  ∧ (code ≠ MEDIA_ERR_SRC_NOT_SUPPORTED →
      Standalone.nodeOnError r id code =
        (r, [Event.statusDispatch id MEDIA_ERROR (.errObj code),
             Event.errorCb id (.errObj code)])) := by
  unfold Standalone.nodeOnError
  constructor
  · intro hc
    rw [if_pos hc, standalone_onStatus_error r id h _ hr, hE]
    simp
  · intro hc
    rw [if_neg hc, standalone_onStatus_error r id h _ hr, hE]
    simp

/-- Witness for C5: a concrete handle whose node reports the
source-not-supported code sees its error callback receive the aborted code. -/
theorem node_error_translation_witness :
    Standalone.nodeOnError sampleReg mId 4 =
      (sampleReg,
       [Event.statusDispatch mId MEDIA_ERROR (.errObj MEDIA_ERR_ABORTED),
        Event.errorCb mId (.errObj MEDIA_ERR_ABORTED)]) :=
  (node_error_translation sampleReg mId sampleHandle 4 (by decide)
    (by decide)).1 (by decide)

theorem standalone_release_eq (r : Registry) (id : String) (h : Handle)
    (hr : regGet r id = some h) :
    Standalone.release r id = (regSet r id { h with node := none }, []) := by
  unfold Standalone.release
  rw [hr]

/-- C8 (confirmed): release never removes the handle's registry entry. In
the standalone variant it only drops the node reference — the handle stays
retrievable by its identifier with identifier, source, callbacks and both
caches unchanged, and a later state event for the identifier is still
dispatched to its status callback. In the executor-backed variant release is
a fire-and-forget executor request and the registry is untouched. -/
theorem release_keeps_registry_entry (r : Registry) (id : String) (h : Handle)
    (v : MValue) (hr : regGet r id = some h) :
    regGet (Standalone.release r id).1 id = some { h with node := none }
  ∧ (Standalone.release r id).2 = []
  ∧ (h.hasStatus = true →
      Event.statusCb id v ∈
        (Standalone.onStatus (Standalone.release r id).1 id MEDIA_STATE v).2)
  ∧ ExecBacked.release r id = (r, [Event.execReq actionRelease id])
  ∧ regGet (ExecBacked.release r id).1 id = some h := by
  rw [standalone_release_eq r id h hr]
  refine ⟨regGet_regSet_self r id _, rfl, ?_, rfl, hr⟩
  intro hst
  rw [standalone_onStatus_state _ _ _ _ (regGet_regSet_self r id _)]
  simp [hst]

/-- Witness for C8: after releasing a concrete handle, it is still in the
registry with only its node dropped. -/
theorem release_keeps_registry_entry_witness :
    regGet (Standalone.release sampleReg mId).1 mId = some releasedHandle :=
  (release_keeps_registry_entry sampleReg mId sampleHandle (.num 2)
    (by decide)).1

/-- A concrete well-formed status message for the inbound channel. -/
def statusMsg : NativeMsg :=
  { action := actionStatus, statusId := mId, statusMsgType := MEDIA_DURATION,
    statusValue := .num 7 }

def actionFoo : String := "frobnicate"

/-- A concrete inbound message with an unrecognized action. -/
def badMsg : NativeMsg := { statusMsg with action := actionFoo }

/-- C9 (confirmed): an inbound channel message whose action is the status
action is dispatched through the executor-backed `onStatus` with the carried
identifier, kind and value; any other action produces the raised
unknown-action error — an `Except.error`, not a swallowed result — and the
registry, hence every handle's state, is unchanged. -/
theorem message_channel_action_contract (r : Registry) (m : NativeMsg) :
    (m.action = actionStatus →
      onMessageFromNative r m =
        ((ExecBacked.onStatus r m.statusId m.statusMsgType m.statusValue).1,
         .ok (ExecBacked.onStatus r m.statusId m.statusMsgType m.statusValue).2))
  ∧ (m.action ≠ actionStatus →
      onMessageFromNative r m = (r, .error (strUnknownAction ++ m.action))) := by
  unfold onMessageFromNative
  constructor
  · intro ha
    rw [if_pos ha]
  · intro ha
    rw [if_neg ha]

/-- Witness for C9: a concrete status message is dispatched; a concrete
message with an unknown action is rejected with the raised error and the
registry unchanged. -/
theorem message_channel_action_contract_witness :
    onMessageFromNative sampleReg statusMsg =
      ((ExecBacked.onStatus sampleReg mId MEDIA_DURATION (.num 7)).1,
       .ok (ExecBacked.onStatus sampleReg mId MEDIA_DURATION (.num 7)).2)
  ∧ onMessageFromNative sampleReg badMsg =
      (sampleReg, .error (strUnknownAction ++ actionFoo)) :=
  ⟨(message_channel_action_contract sampleReg statusMsg).1 (by decide),
   (message_channel_action_contract sampleReg badMsg).2 (by decide)⟩

/-- C1 counterexample: at a concrete released handle (node reference gone,
all callbacks set), pause fails and reports its failure through the error
callback from its own catch handler — yet stop still proceeds: it seeks,
emits the Stopped state event, and the status and success callbacks fire.
This refutes the claim that a pause failure stops the sequence before the
seek and the Stopped event. -/
theorem stop_counterexample_pause_failure_still_stops :
    (Standalone.pause releasedReg mId).2 =
      [Event.statusDispatch mId MEDIA_ERROR (.exn pauseOnUndefined),
       Event.errorCb mId (.exn pauseOnUndefined)]
  ∧ (Standalone.stop releasedReg mId).2 =
      [Event.statusDispatch mId MEDIA_ERROR (.exn pauseOnUndefined),
       Event.errorCb mId (.exn pauseOnUndefined),
       Event.statusDispatch mId MEDIA_ERROR (.exn seekOnUndefined),
       Event.errorCb mId (.exn seekOnUndefined),
       Event.statusDispatch mId MEDIA_STATE (.num MEDIA_STOPPED),
       Event.statusCb mId (.num MEDIA_STOPPED),
       Event.successCb mId]
  ∧ Event.statusCb mId (.num MEDIA_STOPPED) ∈ (Standalone.stop releasedReg mId).2 := by
  decide

/-- C1 (corrected): for every registered handle, stop performs pause, then
seek-to-zero, then emits a synthesized Stopped state event, and a failing
step reports its failure as an error status event rather than re-raising it;
but because pause (like seekTo) catches and reports its own failure
internally, a pause failure does not abort stop: stop still seeks and still
emits the Stopped event. Stated on the failing-pause case (node reference
gone, all callbacks present): the trace is pause's error report, then seek's
error report, then the full Stopped emission. -/
theorem stop_reports_pause_failure_but_proceeds (r : Registry) (id : String)
    (h : Handle) (hr : regGet r id = some h) (hn : h.node = none)
    (hE : h.hasError = true) (hSt : h.hasStatus = true)
    (hS : h.hasSuccess = true) :
    Standalone.stop r id =
      (r, [Event.statusDispatch id MEDIA_ERROR (.exn pauseOnUndefined),
           Event.errorCb id (.exn pauseOnUndefined),
           Event.statusDispatch id MEDIA_ERROR (.exn seekOnUndefined),
           Event.errorCb id (.exn seekOnUndefined),
           Event.statusDispatch id MEDIA_STATE (.num MEDIA_STOPPED),
           Event.statusCb id (.num MEDIA_STOPPED),
           Event.successCb id]) := by
  unfold Standalone.stop
  dsimp only
  rw [standalone_pause_no_node r id h hr hn]
  dsimp only
  rw [standalone_seekTo_no_node r id h 0 hr hn]
  dsimp only
  rw [standalone_onStatus_state r id h _ hr, hE, hSt, hS]
  simp

/-- Witness for C1 at the concrete released handle. -/
theorem stop_reports_pause_failure_but_proceeds_witness :
    Standalone.stop releasedReg mId =
      (releasedReg,
       [Event.statusDispatch mId MEDIA_ERROR (.exn pauseOnUndefined),
        Event.errorCb mId (.exn pauseOnUndefined),
        Event.statusDispatch mId MEDIA_ERROR (.exn seekOnUndefined),
        Event.errorCb mId (.exn seekOnUndefined),
        Event.statusDispatch mId MEDIA_STATE (.num MEDIA_STOPPED),
        Event.statusCb mId (.num MEDIA_STOPPED),
        Event.successCb mId]) :=
  stop_reports_pause_failure_but_proceeds releasedReg mId releasedHandle
    (by decide) (by decide) (by decide) (by decide) (by decide)

/-- C4 counterexample: the executor-backed `getCurrentPosition`, resolved
with position 4200 on a concrete registered handle, invokes the success
callback with 4200 and stores 4200 into the cached position, but dispatches
no position status event at all — its trace is exactly the success callback,
with no `statusDispatch` marker — refuting the claim that a position status
event is emitted on every successful `getCurrentPosition`. -/
theorem getCurrentPosition_counterexample_no_status_event :
    (ExecBacked.getCurrentPosition sampleReg mId (.ok 4200)).2 =
      [Event.posSuccess mId (.num 4200)]
  ∧ Event.statusDispatch mId MEDIA_POSITION (.num 4200) ∉
      (ExecBacked.getCurrentPosition sampleReg mId (.ok 4200)).2
  ∧ regGet (ExecBacked.getCurrentPosition sampleReg mId (.ok 4200)).1 mId =
      some { sampleHandle with position := .num 4200 } := by
  decide

/-- C4 (corrected): on a successful resolution with position p, the
caller-supplied success callback receives p and the cached position becomes
p in both variants; but only the standalone variant emits a position status
event (which is what performs its cache update) — the executor-backed
variant updates the cache directly in its internal success handler without
dispatching any status event. On failure the caller-supplied failure
callback is invoked and the registry is unchanged. -/
theorem getCurrentPosition_success_and_failure_paths (r : Registry)
    (id : String) (h : Handle) (p : Rat) (hr : regGet r id = some h) :
    (∀ n : Node, h.node = some n →
      Standalone.getCurrentPosition r id =
        (regSet r id { h with position := .num n.currentTime },
         [Event.statusDispatch id MEDIA_POSITION (.num n.currentTime),
          Event.posSuccess id (.num n.currentTime)]))
  ∧ (h.node = none →
      Standalone.getCurrentPosition r id =
        (r, [Event.posFail id (.exn readTimeOnUndefined)]))
  ∧ ExecBacked.getCurrentPosition r id (.ok p) =
      (regSet r id { h with position := .num p },
       [Event.posSuccess id (.num p)])
  ∧ (∀ e : MValue, ExecBacked.getCurrentPosition r id (.error e) =
      (r, [Event.posFail id e])) := by
  refine ⟨?_, ?_, ?_, fun e => rfl⟩
  · intro n hn
    obtain ⟨i, s, a, b, c, d, pos, nd⟩ := h
    dsimp only at hn
    subst hn
    unfold Standalone.getCurrentPosition
    rw [hr]
    dsimp only
    rw [standalone_onStatus_position r id _ _ hr]
    simp [jsToNumber]
  · intro hn
    obtain ⟨i, s, a, b, c, d, pos, nd⟩ := h
    dsimp only at hn
    subst hn
    unfold Standalone.getCurrentPosition
    rw [hr]
  · obtain ⟨i, s, a, b, c, d, pos, nd⟩ := h
    unfold ExecBacked.getCurrentPosition
    rw [hr]

/-- Witness for C4 at the scenario input: the executor resolves with 4200;
the success callback receives 4200 and the cached position becomes 4200. -/
theorem getCurrentPosition_success_and_failure_paths_witness :
    ExecBacked.getCurrentPosition sampleReg mId (.ok 4200) =
      (regSet sampleReg mId { sampleHandle with position := .num 4200 },
       [Event.posSuccess mId (.num 4200)]) :=
  (getCurrentPosition_success_and_failure_paths sampleReg mId sampleHandle
    4200 (by decide)).2.2.1

/-- C7 counterexample: the standalone variant's prototype does not define
`pauseRecord`, `resumeRecord` or `startRecordWithCompression` at all (they
exist only in the executor-backed variant); invoking them on a standalone
handle is a TypeError on a missing method, not an unsupported-error status
event — refuting the claim that all five recording operations report
unsupported in the standalone variant. -/
theorem recording_methods_counterexample_missing_in_standalone :
    ("pauseRecord" ∉ Standalone.prototypeMethods)
  ∧ ("resumeRecord" ∉ Standalone.prototypeMethods)
  ∧ ("startRecordWithCompression" ∉ Standalone.prototypeMethods)
  ∧ ("pauseRecord" ∈ ExecBacked.prototypeMethods)
  ∧ ("resumeRecord" ∈ ExecBacked.prototypeMethods)
  ∧ ("startRecordWithCompression" ∈ ExecBacked.prototypeMethods) := by
  decide

/-- C7 (corrected): in the standalone variant, the two recording operations
that exist — `startRecord` and `stopRecord` — are unconditionally reported
as unsupported via an error status event (so a present error callback is
invoked), for every registered handle and regardless of its state; the other
three recording operations of the claim are not defined on the standalone
prototype. -/
theorem standalone_recording_ops_report_unsupported (r : Registry)
    (id : String) (h : Handle) (hr : regGet r id = some h)
    (hE : h.hasError = true) :
    Standalone.startRecord r id =
      (r, [Event.statusDispatch id MEDIA_ERROR (.str strNotSupported),
           Event.errorCb id (.str strNotSupported)])
  ∧ Standalone.stopRecord r id =
      (r, [Event.statusDispatch id MEDIA_ERROR (.str strNotSupported),
           Event.errorCb id (.str strNotSupported)])
  ∧ ("startRecord" ∈ Standalone.prototypeMethods)
  ∧ ("stopRecord" ∈ Standalone.prototypeMethods)
  ∧ ("pauseRecord" ∉ Standalone.prototypeMethods)
  ∧ ("resumeRecord" ∉ Standalone.prototypeMethods)
  ∧ ("startRecordWithCompression" ∉ Standalone.prototypeMethods) := by
  refine ⟨?_, ?_, by decide, by decide, by decide, by decide, by decide⟩
  · unfold Standalone.startRecord
    rw [standalone_onStatus_error r id h _ hr, hE]
    simp
  · unfold Standalone.stopRecord
    rw [standalone_onStatus_error r id h _ hr, hE]
    simp

/-- Witness for C7 at a concrete registered handle. -/
theorem standalone_recording_ops_report_unsupported_witness :
    Standalone.startRecord sampleReg mId =
      (sampleReg,
       [Event.statusDispatch mId MEDIA_ERROR (.str strNotSupported),
        Event.errorCb mId (.str strNotSupported)]) :=
  (standalone_recording_ops_report_unsupported sampleReg mId sampleHandle
    (by decide) (by decide)).1

end MediaRecSpec
